import Mathlib

/-!
Shallow embedding of the weather dashboard repository:
* `src/pages/api/weather.ts` — the proxy endpoint (`handler`);
* `src/pages/index.tsx` — the dashboard view (fetch cycles, geolocation
  error mapping) and its chart variant (`calculateTemperaturePercentage`).

JavaScript truthiness is modelled explicitly: a query value is truthy iff
it is a nonempty string or an array; an optional string is truthy iff it
is present and nonempty; a number is truthy iff it is nonzero.
-/

/-- A Next.js query parameter value: `string | string[] | undefined`. -/
inductive QueryValue where
  | missing
  | str (s : String)
  | arr (xs : List String)
deriving DecidableEq

/-- JavaScript truthiness of a query value: `undefined` is falsy, a string
is truthy iff nonempty, an array (object) is always truthy. -/
def QueryValue.truthy : QueryValue → Bool
  | .missing => false
  | .str s => s ≠ ""
  | .arr _ => true

/-- `typeof v === 'string'`. -/
def QueryValue.isString : QueryValue → Bool
  | .str _ => true
  | _ => false

/-- The string carried by a `str` query value (only used by `handler`
under an `isString` guard, where the default is unreachable). -/
def QueryValue.asString : QueryValue → String
  | .str s => s
  | _ => ""

/-- One entry of the `weather` array of the provider payload. -/
structure WeatherDesc where
  description : String
  icon : String
deriving DecidableEq

/-- The `main` measurements object of the provider payload. -/
structure MainMeasure where
  temp : ℚ
  feels_like : ℚ
  humidity : ℚ
deriving DecidableEq

/-- The `wind` object of the provider payload. -/
structure Wind where
  speed : ℚ
deriving DecidableEq

/-- The parsed upstream response body (`WeatherData` in `weather.ts`).
`cod` is `Option Int` because the JSON body may lack the field even though
the TypeScript type declares it; `message` is optional in the source. -/
structure WeatherData where
  name : String
  weather : List WeatherDesc
  main : MainMeasure
  wind : Wind
  cod : Option Int
  message : Option String
deriving DecidableEq

/-- The incoming request's query parameters `city`, `lat`, `lon`. -/
structure ApiRequest where
  city : QueryValue
  lat : QueryValue
  lon : QueryValue
deriving DecidableEq

/-- Outcome of `await fetch(url)` + `await response.json()`: either a
parsed body, or a thrown transport/parse exception. -/
inductive UpstreamResult where
  | success (d : WeatherData)
  | failure
deriving DecidableEq

/-- Which upstream request the proxy builds (the two `url` templates of
`weather.ts`, with the interpolated request parameters). -/
inductive UpstreamKind where
  | byCoords (lat lon : String)
  | byCity (city : String)
deriving DecidableEq

/-- The exact upstream URL string the proxy interpolates for a given
request kind and API key. -/
def urlOf (key : String) : UpstreamKind → String
  | .byCoords lat lon =>
      "https://api.openweathermap.org/data/2.5/weather?lat=" ++ lat ++
        "&lon=" ++ lon ++ "&appid=" ++ key ++ "&units=metric&lang=kr"
  | .byCity city =>
      "https://api.openweathermap.org/data/2.5/weather?q=" ++ city ++
        "&appid=" ++ key ++ "&units=metric&lang=kr"

/-- Body of the proxy's response: either `{ message }` or the relayed
provider payload. -/
inductive ResponseBody where
  | message (s : String)
  | payload (d : WeatherData)
deriving DecidableEq

/-- The proxy's HTTP response. -/
structure ApiResponse where
  status : Int
  body : ResponseBody
deriving DecidableEq

/-- JavaScript `m || fallback` on an optional string: the fallback is used
when the string is absent or empty (falsy). -/
def jsOr (m : Option String) (fallback : String) : String :=
  match m with
  | some s => if s = "" then fallback else s
  | none => fallback

/-- JavaScript `!apiKey` on `process.env.OPENWEATHER_API_KEY`: true when
the variable is unset or set to the empty string. -/
def falsyKey : Option String → Bool
  | none => true
  | some s => s == ""

/-- The `try` block of `handler` after the URL is built: on a thrown fetch,
500 with the fixed network message; otherwise inspect `data.cod`
(`data.cod && data.cod !== 200` relays the provider error, else 200 with
the payload). Returns the response together with the upstream request that
was issued. -/
def handleUpstream (kind : UpstreamKind) (u : UpstreamResult) :
    ApiResponse × Option UpstreamKind :=
  match u with
  | .failure =>
      (⟨500, .message "Internal Server Error or Network Issue"⟩, some kind)
  | .success d =>
      match d.cod with
      | some c =>
          if c ≠ 0 ∧ c ≠ 200 then
            (⟨c, .message (jsOr d.message
                ("OpenWeatherMap API Error: " ++ toString c))⟩, some kind)
          else (⟨200, .payload d⟩, some kind)
      | none => (⟨200, .payload d⟩, some kind)

/-- `handler` of `src/pages/api/weather.ts`: checks the API key, picks the
coordinate-keyed or city-keyed upstream request (or 400), then relays the
upstream outcome. The second component is the upstream request issued
(`none` when the handler returns before calling the provider). -/
def handler (apiKey : Option String) (req : ApiRequest) (u : UpstreamResult) :
    ApiResponse × Option UpstreamKind :=
  if falsyKey apiKey then
    (⟨500, .message "API Key not configured"⟩, none)
  else if req.lat.truthy && req.lon.truthy && req.lat.isString && req.lon.isString then
    handleUpstream (.byCoords req.lat.asString req.lon.asString) u
  else if req.city.truthy && req.city.isString then
    handleUpstream (.byCity req.city.asString) u
  else
    (⟨400, .message "City or latitude/longitude query parameters are required"⟩, none)

/-! ### Dashboard view (`src/pages/index.tsx`) -/

/-- The client-side `WeatherData` type of `index.tsx` (no `cod`/`message`). -/
structure ClientWeatherData where
  name : String
  weather : List WeatherDesc
  main : MainMeasure
  wind : Wind
deriving DecidableEq

/-- The view's React state: `city`, `weather`, `loading`, `error`,
`locationLoading`, `locationError`. -/
structure ViewState where
  city : String
  weather : Option ClientWeatherData
  loading : Bool
  error : Option String
  locationLoading : Bool
  locationError : Option String
deriving DecidableEq

/-- Observable outcome of one `fetch` of the proxy from the view:
`response.ok` with a parsed payload, a non-ok response with an optional
`message` field, or a thrown exception (network/parse failure). -/
inductive FetchOutcome where
  | ok (data : ClientWeatherData)
  | httpError (message : Option String)
  | thrown
deriving DecidableEq

/-- The opening statements of either fetch function:
`setLoading(true); setError(null); setWeather(null)`. -/
def fetchStart (s : ViewState) : ViewState :=
  { s with loading := true, error := none, weather := none }

/-- `fetchWeatherByCoords` of `index.tsx`, applied to the observable fetch
outcome. On `response.ok`: store the payload and clear the city input; on
a non-ok response: `setError(data.message || fallback)`; on a thrown
exception: the fixed generic message; `finally` clears `loading`. The
second component records that a network request was issued. -/
def fetchWeatherByCoords (s : ViewState) (o : FetchOutcome) : ViewState × Bool :=
  let s1 := fetchStart s
  let s2 := match o with
    | .ok d => { s1 with weather := some d, city := "" }
    | .httpError m =>
        { s1 with error := some (jsOr m "위치 기반 날씨 정보를 가져오는데 실패했습니다.") }
    | .thrown =>
        { s1 with error := some "날씨 정보를 가져오는 중 예상치 못한 오류가 발생했습니다." }
  ({ s2 with loading := false }, true)

/-- `fetchWeatherByCity` of `index.tsx`: `if (!cityName) return;` makes an
empty city name a no-op with no request issued; otherwise the same cycle
as the coordinate fetch with the city-specific fallback message. -/
def fetchWeatherByCity (cityName : String) (s : ViewState) (o : FetchOutcome) :
    ViewState × Bool :=
  if cityName = "" then (s, false)
  else
    let s1 := fetchStart s
    let s2 := match o with
      | .ok d => { s1 with weather := some d }
      | .httpError m =>
          { s1 with error := some (jsOr m "도시 이름으로 날씨 정보를 가져오는데 실패했습니다.") }
      | .thrown =>
          { s1 with error := some "날씨 정보를 가져오는 중 예상치 못한 오류가 발생했습니다." }
    ({ s2 with loading := false }, true)

/-- `handleSearch` of `index.tsx`: submits the current `city` state to
`fetchWeatherByCity` (after `preventDefault`). -/
def handleSearch (s : ViewState) (o : FetchOutcome) : ViewState × Bool :=
  fetchWeatherByCity s.city s o

/-- The geolocation failure callback's `switch (err.code)`:
`PERMISSION_DENIED = 1`, `POSITION_UNAVAILABLE = 2`, `TIMEOUT = 3`, and a
default carrying the code. (The initial value of `errorMessage` is
overwritten on every path, the `default` case included.) -/
def geolocationErrorMessage (code : Nat) : String :=
  if code = 1 then "위치 정보 제공을 허용해주세요."
  else if code = 2 then "사용 가능한 위치 정보가 없습니다."
  else if code = 3 then "위치 정보 요청 시간이 초과되었습니다."
  else "알 수 없는 위치 정보 오류가 발생했습니다. (코드: " ++ toString code ++ ")"

/-- `calculateTemperaturePercentage` of the chart variant of `index.tsx`:
clamp the temperature to [−20, 40], map linearly onto [0, 100] and
`Math.round` (Mathlib's `round` is `⌊x + 1/2⌋`, which agrees with
JavaScript's half-up rounding). `none` models `undefined` → `null`. -/
def calculateTemperaturePercentage : Option ℚ → Option ℤ
  | none => none
  | some temp =>
      let minTemp : ℚ := -20
      let maxTemp : ℚ := 40
      let range : ℚ := maxTemp - minTemp
      let clampedTemp : ℚ := max minTemp (min maxTemp temp)
      let percentage : ℚ := (clampedTemp - minTemp) / range * 100
      some (round percentage)

/-! ### Concrete inputs used by witnesses and counterexamples -/

/-- The URL-building condition of `handler`: some upstream request is
built (coordinate-keyed or city-keyed branch taken). -/
def buildsUrl (req : ApiRequest) : Bool :=
  (req.lat.truthy && req.lon.truthy && req.lat.isString && req.lon.isString) ||
    (req.city.truthy && req.city.isString)

/-- A request carrying only `city=Seoul`. -/
def reqSeoul : ApiRequest := ⟨.str "Seoul", .missing, .missing⟩

/-- A request carrying `city`, `lat` and `lon` all as nonempty strings. -/
def reqBoth : ApiRequest := ⟨.str "Seoul", .str "37.5", .str "127.0"⟩

/-- A request with no query parameters at all. -/
def reqEmpty : ApiRequest := ⟨.missing, .missing, .missing⟩

/-- A successful provider payload (`cod = 200`). -/
def dOk : WeatherData :=
  ⟨"Seoul", [⟨"맑음", "01d"⟩], ⟨5, 3, 40⟩, ⟨2⟩, some 200, none⟩

/-- A provider payload whose embedded `cod` is present but `0` (falsy). -/
def dCod0 : WeatherData :=
  ⟨"Seoul", [⟨"맑음", "01d"⟩], ⟨5, 3, 40⟩, ⟨2⟩, some 0, none⟩

/-- A provider payload reporting its own error with `cod = 500`. -/
def d500 : WeatherData :=
  ⟨"", [], ⟨0, 0, 0⟩, ⟨0⟩, some 500, some "bad gateway"⟩

/-- A provider payload reporting `cod = 404` with a nonempty message. -/
def d404 : WeatherData :=
  ⟨"", [], ⟨0, 0, 0⟩, ⟨0⟩, some 404, some "city not found"⟩

/-- A fresh view state (as after the initial `useState` calls). -/
def viewState0 : ViewState := ⟨"", none, false, none, true, none⟩

/-- A concrete client-side payload. -/
def clientData0 : ClientWeatherData :=
  ⟨"Seoul", [⟨"맑음", "01d"⟩], ⟨5, 3, 40⟩, ⟨2⟩⟩

/-! ### Helper lemmas -/

/-- Once a URL is built, the handler reports exactly that upstream request
as issued, whatever the upstream outcome. -/
lemma handleUpstream_snd (kind : UpstreamKind) (u : UpstreamResult) :
    (handleUpstream kind u).2 = some kind := by
  cases u with
  | failure => rfl
  | success d =>
      cases hd : d.cod with
      | none => simp [handleUpstream, hd]
      | some c =>
          by_cases h : c ≠ 0 ∧ c ≠ 200
          · simp [handleUpstream, hd, h]
          · simp [handleUpstream, hd, h]

/-- With the key configured and some branch building a URL, the handler is
`handleUpstream` of that branch's request kind. -/
lemma handler_buildsUrl (apiKey : Option String) (req : ApiRequest)
    (u : UpstreamResult) (hk : falsyKey apiKey = false) (hb : buildsUrl req = true) :
    ∃ kind, handler apiKey req u = handleUpstream kind u := by
  unfold handler
  rw [hk]
  simp only [Bool.false_eq_true, if_false]
  unfold buildsUrl at hb
  by_cases hco :
      (req.lat.truthy && req.lon.truthy && req.lat.isString && req.lon.isString) = true
  · exact ⟨_, by rw [if_pos hco]⟩
  · rw [if_neg hco]
    rw [Bool.or_eq_true] at hb
    rcases hb with hb | hb
    · exact absurd hb hco
    · exact ⟨_, by rw [if_pos hb]⟩

/-! ### Claim theorems -/

/-- Claim C2: `calculateTemperaturePercentage` linearly maps temperature
from −20°C..40°C (clamped) onto 0..100 and rounds: −20 ↦ 0, 40 ↦ 100,
10 ↦ 50, −50 ↦ 0 (below range), 100 ↦ 100 (above range), and every
defined input yields an integer in [0, 100]. -/
theorem temperature_percentage_spec :
    calculateTemperaturePercentage (some (-20)) = some 0 ∧
    calculateTemperaturePercentage (some 40) = some 100 ∧
    calculateTemperaturePercentage (some 10) = some 50 ∧
    calculateTemperaturePercentage (some (-50)) = some 0 ∧
    calculateTemperaturePercentage (some 100) = some 100 ∧
    ∀ t : ℚ, ∃ n : ℤ,
      calculateTemperaturePercentage (some t) = some n ∧ 0 ≤ n ∧ n ≤ 100 := by
  refine ⟨?_, ?_, ?_, ?_, ?_, ?_⟩
  · norm_num [calculateTemperaturePercentage, round_eq]
  · norm_num [calculateTemperaturePercentage, round_eq]
  · norm_num [calculateTemperaturePercentage, round_eq]
  · norm_num [calculateTemperaturePercentage, round_eq]
  · norm_num [calculateTemperaturePercentage, round_eq]
  · intro t
    simp only [calculateTemperaturePercentage]
    set c : ℚ := max (-20 : ℚ) (min 40 t) with hc
    have h1 : (-20 : ℚ) ≤ c := le_max_left _ _
    have h2 : c ≤ 40 := max_le (by norm_num) (min_le_left _ _)
    set p : ℚ := (c - -20) / (40 - -20) * 100 with hp
    have hp0 : 0 ≤ p := by
      apply mul_nonneg _ (by norm_num)
      apply div_nonneg (by linarith) (by norm_num)
    have hp100 : p ≤ 100 := by
      rw [hp, div_mul_eq_mul_div, div_le_iff₀ (by norm_num)]
      nlinarith
    refine ⟨round p, rfl, ?_, ?_⟩
    · rw [round_eq]
      exact Int.le_floor.mpr (by push_cast; linarith)
    · rw [round_eq]
      have hfl := Int.floor_lt.mpr (by push_cast; linarith : (p + 1 / 2 : ℚ) < (101 : ℤ))
      omega

/-- Claim C7: the geolocation failure-code mapping is total and
deterministic — codes 1, 2, 3 each yield their fixed message, any other
code yields the unknown-with-code message, and the result is never
empty. -/
theorem geolocation_message_spec :
    geolocationErrorMessage 1 = "위치 정보 제공을 허용해주세요." ∧
    geolocationErrorMessage 2 = "사용 가능한 위치 정보가 없습니다." ∧
    geolocationErrorMessage 3 = "위치 정보 요청 시간이 초과되었습니다." ∧
    (∀ c : Nat, c ≠ 1 → c ≠ 2 → c ≠ 3 →
      geolocationErrorMessage c =
        "알 수 없는 위치 정보 오류가 발생했습니다. (코드: " ++ toString c ++ ")") ∧
    (∀ c : Nat, geolocationErrorMessage c ≠ "") := by
  refine ⟨by decide, by decide, by decide, ?_, ?_⟩
  · intro c h1 h2 h3
    simp [geolocationErrorMessage, h1, h2, h3]
  · intro c
    unfold geolocationErrorMessage
    split
    · decide
    split
    · decide
    split
    · decide
    · intro h
      have hd := congrArg String.data h
      rw [String.data_append, String.data_append] at hd
      simp at hd

/-- Witness for C7 at the concrete codes 7 and 5. -/
theorem geolocation_message_witness :
    (7 : Nat) ≠ 1 ∧ (7 : Nat) ≠ 2 ∧ (7 : Nat) ≠ 3 ∧
    geolocationErrorMessage 7 =
      "알 수 없는 위치 정보 오류가 발생했습니다. (코드: " ++ toString (7 : Nat) ++ ")" ∧
    geolocationErrorMessage 5 ≠ "" :=
  ⟨by decide, by decide, by decide,
    geolocation_message_spec.2.2.2.1 7 (by decide) (by decide) (by decide),
    geolocation_message_spec.2.2.2.2 5⟩

/-- Claim C9: the configuration check runs first — whenever the provider
credential is missing (or empty), the proxy responds 500 with the
misconfiguration message and issues no upstream call, for every request,
including requests that also lack all query parameters. -/
theorem missing_key_precedence (apiKey : Option String) (req : ApiRequest)
    (u : UpstreamResult) (hk : falsyKey apiKey = true) :
    handler apiKey req u = (⟨500, .message "API Key not configured"⟩, none) := by
  unfold handler
  rw [hk]
  rfl

/-- Witness for C9: no key configured and a request with no parameters
still yields the 500 misconfiguration response, not the 400. -/
theorem missing_key_precedence_witness :
    falsyKey none = true ∧
    handler none reqEmpty .failure = (⟨500, .message "API Key not configured"⟩, none) :=
  ⟨rfl, missing_key_precedence none reqEmpty .failure rfl⟩

/-- Claim C4: with the credential configured, a request lacking both a
city parameter and a full coordinate pair gets status 400 with the fixed
message and no upstream call is issued. -/
theorem missing_params_400 (apiKey : Option String) (req : ApiRequest)
    (u : UpstreamResult) (hk : falsyKey apiKey = false)
    (hc : req.city = .missing) (hl : req.lat = .missing ∨ req.lon = .missing) :
    handler apiKey req u =
      (⟨400, .message "City or latitude/longitude query parameters are required"⟩,
        none) := by
  unfold handler
  rw [hk]
  rcases hl with h | h <;>
    simp [h, hc, QueryValue.truthy, QueryValue.isString]

/-- Witness for C4: the empty request with a configured key gets the 400
response and no upstream request. -/
theorem missing_params_400_witness :
    falsyKey (some "testkey") = false ∧
    reqEmpty.city = .missing ∧ (reqEmpty.lat = .missing ∨ reqEmpty.lon = .missing) ∧
    handler (some "testkey") reqEmpty .failure =
      (⟨400, .message "City or latitude/longitude query parameters are required"⟩,
        none) :=
  ⟨rfl, rfl, Or.inl rfl,
    missing_params_400 (some "testkey") reqEmpty .failure rfl rfl (Or.inl rfl)⟩

/-- Claim C3: when `lat` and `lon` are both present as nonempty strings,
the handler issues the coordinate-keyed upstream request and never a
city-keyed one (even if `city` is also supplied); conversely a city-keyed
upstream request is issued only when the coordinate condition fails and
`city` is a nonempty string. -/
theorem coords_preferred (apiKey : Option String) (req : ApiRequest)
    (u : UpstreamResult) (hk : falsyKey apiKey = false) :
    (∀ la lo, req.lat = .str la → la ≠ "" → req.lon = .str lo → lo ≠ "" →
      (handler apiKey req u).2 = some (.byCoords la lo) ∧
      ∀ c, (handler apiKey req u).2 ≠ some (.byCity c)) ∧
    (∀ c, (handler apiKey req u).2 = some (.byCity c) →
      (req.lat.truthy && req.lon.truthy && req.lat.isString && req.lon.isString)
          = false ∧
      req.city = .str c ∧ c ≠ "") := by
  constructor
  · intro la lo hla hlane hlo hlone
    have hcond :
        (req.lat.truthy && req.lon.truthy && req.lat.isString && req.lon.isString)
          = true := by
      simp [hla, hlo, QueryValue.truthy, QueryValue.isString, hlane, hlone]
    have hh : handler apiKey req u = handleUpstream (.byCoords la lo) u := by
      unfold handler
      rw [hk]
      simp only [Bool.false_eq_true, if_false]
      rw [if_pos hcond, hla, hlo]
      rfl
    rw [hh, handleUpstream_snd]
    simp
  · intro c hcity
    unfold handler at hcity
    rw [hk] at hcity
    simp only [Bool.false_eq_true, if_false] at hcity
    by_cases hcond :
        (req.lat.truthy && req.lon.truthy && req.lat.isString && req.lon.isString)
          = true
    · rw [if_pos hcond, handleUpstream_snd] at hcity
      simp at hcity
    · rw [if_neg hcond] at hcity
      refine ⟨by simpa using hcond, ?_⟩
      by_cases hc : (req.city.truthy && req.city.isString) = true
      · rw [if_pos hc, handleUpstream_snd] at hcity
        rcases hcc : req.city with _ | s | xs
        · rw [hcc] at hc
          simp [QueryValue.truthy] at hc
        · rw [hcc] at hc hcity
          simp [QueryValue.truthy, QueryValue.isString] at hc
          simp [QueryValue.asString] at hcity
          exact ⟨by rw [hcity], hcity ▸ hc⟩
        · rw [hcc] at hc
          simp [QueryValue.isString] at hc
      · rw [if_neg hc] at hcity
        simp at hcity

/-- Witness for C3: with city, lat and lon all supplied, the upstream
request is coordinate-keyed, and the converse direction holds for the
city-only request. -/
theorem coords_preferred_witness :
    falsyKey (some "testkey") = false ∧
    reqBoth.lat = .str "37.5" ∧ "37.5" ≠ "" ∧
    reqBoth.lon = .str "127.0" ∧ "127.0" ≠ "" ∧
    ((handler (some "testkey") reqBoth (.success dOk)).2 =
      some (.byCoords "37.5" "127.0") ∧
      ∀ c, (handler (some "testkey") reqBoth (.success dOk)).2 ≠ some (.byCity c)) ∧
    ((reqSeoul.lat.truthy && reqSeoul.lon.truthy && reqSeoul.lat.isString &&
        reqSeoul.lon.isString) = false ∧
      reqSeoul.city = .str "Seoul" ∧ "Seoul" ≠ "") :=
  ⟨rfl, rfl, by decide, rfl, by decide,
    (coords_preferred (some "testkey") reqBoth (.success dOk) rfl).1
      "37.5" "127.0" rfl (by decide) rfl (by decide),
    (coords_preferred (some "testkey") reqSeoul (.success dOk) rfl).2 "Seoul"
      (by decide)⟩

/-- Counterexample to C1 as stated: the payload `dCod0` embeds the status
code `0` — present and not equal to 200 — yet the proxy responds 200 with
the payload, because `data.cod && data.cod !== 200` treats the falsy code
`0` as the success case. -/
theorem provider_error_relay_cex :
    dCod0.cod = some 0 ∧ (0 : ℤ) ≠ 200 ∧
    (handler (some "testkey") reqSeoul (.success dCod0)).1.status = 200 ∧
    (handler (some "testkey") reqSeoul (.success dCod0)).1.body =
      .payload dCod0 := by
  refine ⟨rfl, by decide, ?_, ?_⟩ <;> decide

/-- Amended C1: when the upstream body embeds a status code that is
present, nonzero and not 200, the proxy responds with that same status
code; the body is the provider's message when it is present and nonempty,
and otherwise the generic fallback naming the code. -/
theorem provider_error_relayed (apiKey : Option String) (req : ApiRequest)
    (d : WeatherData) (c : ℤ) (hk : falsyKey apiKey = false)
    (hb : buildsUrl req = true) (hcod : d.cod = some c)
    (hc0 : c ≠ 0) (hc200 : c ≠ 200) :
    (handler apiKey req (.success d)).1.status = c ∧
    (∀ m, d.message = some m → m ≠ "" →
      (handler apiKey req (.success d)).1.body = .message m) ∧
    (d.message = none ∨ d.message = some "" →
      (handler apiKey req (.success d)).1.body =
        .message ("OpenWeatherMap API Error: " ++ toString c)) := by
  obtain ⟨kind, hh⟩ := handler_buildsUrl apiKey req (.success d) hk hb
  rw [hh]
  unfold handleUpstream
  simp only [hcod]
  rw [if_pos ⟨hc0, hc200⟩]
  refine ⟨rfl, ?_, ?_⟩
  · intro m hm hmne
    simp [jsOr, hm, hmne]
  · rintro (hm | hm) <;> simp [jsOr, hm]

/-- Witness for amended C1: the provider reports 404 "city not found" and
the proxy relays exactly that status and message. -/
theorem provider_error_relayed_witness :
    falsyKey (some "testkey") = false ∧ buildsUrl reqSeoul = true ∧
    d404.cod = some 404 ∧ (404 : ℤ) ≠ 0 ∧ (404 : ℤ) ≠ 200 ∧
    d404.message = some "city not found" ∧ "city not found" ≠ "" ∧
    (handler (some "testkey") reqSeoul (.success d404)).1.status = 404 ∧
    (handler (some "testkey") reqSeoul (.success d404)).1.body =
      .message "city not found" :=
  ⟨rfl, rfl, rfl, by decide, by decide, rfl, by decide,
    (provider_error_relayed (some "testkey") reqSeoul d404 404 rfl rfl rfl
      (by decide) (by decide)).1,
    (provider_error_relayed (some "testkey") reqSeoul d404 404 rfl rfl rfl
      (by decide) (by decide)).2.1 "city not found" rfl (by decide)⟩

/-- Counterexample to C5 as stated: a provider payload embedding
`cod = 500` makes the proxy return status 500 with the provider's own
message — a third source of 500 beyond the missing credential and the
transport failure, with a non-fixed message. -/
theorem five_hundred_sources_cex :
    falsyKey (some "testkey") = false ∧
    (UpstreamResult.success d500) ≠ .failure ∧
    (handler (some "testkey") reqSeoul (.success d500)).1 =
      ⟨500, .message "bad gateway"⟩ := by
  refine ⟨rfl, ?_, ?_⟩ <;> decide

/-- Amended C5: the proxy's own 500 responses arise in exactly two
situations, each with its fixed message — a missing credential (before
any upstream call) and a transport failure — while a status of 500 can
additionally be relayed when the provider itself embeds `cod = 500`. -/
theorem five_hundred_sources (apiKey : Option String) (req : ApiRequest)
    (u : UpstreamResult) :
    (falsyKey apiKey = true →
      (handler apiKey req u).1 = ⟨500, .message "API Key not configured"⟩ ∧
      (handler apiKey req u).2 = none) ∧
    (falsyKey apiKey = false → buildsUrl req = true → u = .failure →
      (handler apiKey req u).1 =
        ⟨500, .message "Internal Server Error or Network Issue"⟩) ∧
    ((handler apiKey req u).1.status = 500 →
      falsyKey apiKey = true ∨ u = .failure ∨
        ∃ d, u = .success d ∧ d.cod = some 500) := by
  refine ⟨?_, ?_, ?_⟩
  · intro hk
    rw [missing_key_precedence apiKey req u hk]
    exact ⟨rfl, rfl⟩
  · intro hk hb hu
    obtain ⟨kind, hh⟩ := handler_buildsUrl apiKey req u hk hb
    rw [hh, hu]
    rfl
  · intro h500
    by_cases hk : falsyKey apiKey = true
    · exact Or.inl hk
    · right
      rw [Bool.not_eq_true] at hk
      unfold handler at h500
      rw [hk] at h500
      simp only [Bool.false_eq_true, if_false] at h500
      have relay : ∀ kind : UpstreamKind,
          (handleUpstream kind u).1.status = 500 →
          u = .failure ∨ ∃ d, u = .success d ∧ d.cod = some 500 := by
        intro kind hs
        cases u with
        | failure => exact Or.inl rfl
        | success d =>
            right
            refine ⟨d, rfl, ?_⟩
            cases hd : d.cod with
            | none => simp [handleUpstream, hd] at hs
            | some c =>
                by_cases hc : c ≠ 0 ∧ c ≠ 200
                · simp [handleUpstream, hd, hc] at hs
                  rw [hs]
                · simp [handleUpstream, hd, hc] at hs
      by_cases hco :
          (req.lat.truthy && req.lon.truthy && req.lat.isString && req.lon.isString)
            = true
      · rw [if_pos hco] at h500
        exact relay _ h500
      · rw [if_neg hco] at h500
        by_cases hci : (req.city.truthy && req.city.isString) = true
        · rw [if_pos hci] at h500
          exact relay _ h500
        · rw [if_neg hci] at h500
          exact absurd h500 (by decide)

/-- Witness for amended C5 at concrete inputs: the misconfigured case and
the transport-failure case both yield their fixed 500 responses, and a
concrete 500 status is traced back to one of the three sources. -/
theorem five_hundred_sources_witness :
    ((handler none reqSeoul .failure).1 =
        ⟨500, .message "API Key not configured"⟩ ∧
      (handler none reqSeoul .failure).2 = none) ∧
    (handler (some "testkey") reqSeoul .failure).1 =
      ⟨500, .message "Internal Server Error or Network Issue"⟩ ∧
    (falsyKey (some "testkey") = true ∨
      (UpstreamResult.success d500) = .failure ∨
      ∃ d, (UpstreamResult.success d500) = .success d ∧ d.cod = some 500) :=
  ⟨(five_hundred_sources none reqSeoul .failure).1 rfl,
    (five_hundred_sources (some "testkey") reqSeoul .failure).2.1 rfl rfl rfl,
    (five_hundred_sources (some "testkey") reqSeoul (.success d500)).2.2
      (by decide)⟩

/-- Claim C6: the proxy's client-visible output does not depend on the
configured secret key — for any two configured (nonempty) keys, the
response and the reported upstream request kind are identical, so no
branch writes the key into the response; the key reaches only the
upstream URL (`urlOf`). -/
theorem key_noninterference (req : ApiRequest) (u : UpstreamResult)
    (k1 k2 : String) (h1 : k1 ≠ "") (h2 : k2 ≠ "") :
    handler (some k1) req u = handler (some k2) req u := by
  have e1 : falsyKey (some k1) = false := by
    simp [falsyKey, h1]
  have e2 : falsyKey (some k2) = false := by
    simp [falsyKey, h2]
  unfold handler
  rw [e1, e2]

/-- Witness for C6: two distinct concrete keys produce identical
responses on a concrete request and upstream outcome. -/
theorem key_noninterference_witness :
    "alpha" ≠ "" ∧ "beta" ≠ "" ∧
    handler (some "alpha") reqSeoul (.success d404) =
      handler (some "beta") reqSeoul (.success d404) :=
  ⟨by decide, by decide,
    key_noninterference reqSeoul (.success d404) "alpha" "beta"
      (by decide) (by decide)⟩

/-- Claim C8: every fetch cycle (coordinates, or city with a nonempty
name) first sets the loading flag and clears the prior error and result;
on success it stores the payload, on a non-ok response it stores the
proxy's message (or the fallback), on a thrown exception the generic
message; and the loading flag is cleared in every case, with every
outcome — exception included — handled. -/
theorem fetch_cycle_spec (s : ViewState) (o : FetchOutcome) (cityName : String)
    (h : cityName ≠ "") :
    (fetchStart s).loading = true ∧ (fetchStart s).error = none ∧
    (fetchStart s).weather = none ∧
    (fetchWeatherByCoords s o).1.loading = false ∧
    (fetchWeatherByCoords s o).2 = true ∧
    (fetchWeatherByCity cityName s o).1.loading = false ∧
    (fetchWeatherByCity cityName s o).2 = true ∧
    (match o with
     | .ok d =>
        (fetchWeatherByCoords s o).1.weather = some d ∧
        (fetchWeatherByCoords s o).1.error = none ∧
        (fetchWeatherByCity cityName s o).1.weather = some d ∧
        (fetchWeatherByCity cityName s o).1.error = none
     | .httpError m =>
        (fetchWeatherByCoords s o).1.weather = none ∧
        (fetchWeatherByCoords s o).1.error =
          some (jsOr m "위치 기반 날씨 정보를 가져오는데 실패했습니다.") ∧
        (fetchWeatherByCity cityName s o).1.weather = none ∧
        (fetchWeatherByCity cityName s o).1.error =
          some (jsOr m "도시 이름으로 날씨 정보를 가져오는데 실패했습니다.")
     | .thrown =>
        (fetchWeatherByCoords s o).1.weather = none ∧
        (fetchWeatherByCoords s o).1.error =
          some "날씨 정보를 가져오는 중 예상치 못한 오류가 발생했습니다." ∧
        (fetchWeatherByCity cityName s o).1.weather = none ∧
        (fetchWeatherByCity cityName s o).1.error =
          some "날씨 정보를 가져오는 중 예상치 못한 오류가 발생했습니다.") := by
  cases o <;>
    simp [fetchWeatherByCoords, fetchWeatherByCity, fetchStart, h]

/-- Witness for C8: a concrete cycle for the city "Seoul" with an upstream
response carrying no message, for both fetch functions. -/
theorem fetch_cycle_spec_witness :
    (fetchStart viewState0).loading = true ∧
    (fetchStart viewState0).error = none ∧
    (fetchStart viewState0).weather = none ∧
    (fetchWeatherByCoords viewState0 (.httpError none)).1.loading = false ∧
    (fetchWeatherByCoords viewState0 (.httpError none)).2 = true ∧
    (fetchWeatherByCity "Seoul" viewState0 (.httpError none)).1.loading = false ∧
    (fetchWeatherByCity "Seoul" viewState0 (.httpError none)).2 = true ∧
    ((fetchWeatherByCoords viewState0 (.httpError none)).1.weather = none ∧
      (fetchWeatherByCoords viewState0 (.httpError none)).1.error =
        some (jsOr none "위치 기반 날씨 정보를 가져오는데 실패했습니다.") ∧
      (fetchWeatherByCity "Seoul" viewState0 (.httpError none)).1.weather = none ∧
      (fetchWeatherByCity "Seoul" viewState0 (.httpError none)).1.error =
        some (jsOr none "도시 이름으로 날씨 정보를 가져오는데 실패했습니다.")) :=
  fetch_cycle_spec viewState0 (.httpError none) "Seoul" (by decide)

/-- Claim C10: submitting the form with an empty city name is a no-op —
`fetchWeatherByCity` returns without issuing a request and the view state
is unchanged, and so does `handleSearch` when the `city` state is
empty. -/
theorem empty_city_noop (s : ViewState) (o : FetchOutcome) :
    fetchWeatherByCity "" s o = (s, false) ∧
    (s.city = "" → handleSearch s o = (s, false)) := by
  constructor
  · unfold fetchWeatherByCity
    rw [if_pos rfl]
  · intro h
    unfold handleSearch fetchWeatherByCity
    rw [h, if_pos rfl]

/-- Witness for C10: the fresh view state has an empty city, and
submitting it changes nothing and issues no request. -/
theorem empty_city_noop_witness :
    fetchWeatherByCity "" viewState0 .thrown = (viewState0, false) ∧
    handleSearch viewState0 .thrown = (viewState0, false) :=
  ⟨(empty_city_noop viewState0 .thrown).1,
    (empty_city_noop viewState0 .thrown).2 rfl⟩
